import Mathlib

/-!
Verification of the block-lifecycle core of the HLSI-2026 stone-inventory
application.  JavaScript numbers are embedded as rationals, timestamps as
integer milliseconds, and the mutation handlers of the React components as
pure functions over an explicit `Block` record and `List Block` collections.
-/

namespace HLSI

/-! ## JavaScript numeric helpers -/

/-- `Math.round`: rounds half toward positive infinity. -/
def jsRound (q : ℚ) : ℤ := ⌊q + 1/2⌋

/-- Rounding used by `Number(x.toFixed(n))`: half away from zero. -/
def jsFixedRound (q : ℚ) : ℤ := if q < 0 then -⌊-q + 1/2⌋ else ⌊q + 1/2⌋

/-- `Number(x.toFixed(2))`: round to two decimal places. -/
def round2 (q : ℚ) : ℚ := (jsFixedRound (q * 100) : ℚ) / 100

/-- `str.toUpperCase()`, character by character (the data is ASCII). -/
def jsToUpper (s : String) : String := ⟨s.data.map Char.toUpper⟩

/-- `str.trim()`: strip leading and trailing whitespace. -/
def jsTrim (s : String) : String :=
  ⟨((s.data.dropWhile Char.isWhitespace).reverse.dropWhile
      Char.isWhitespace).reverse⟩

/-! ## Data model (`types.ts`) -/

/-- `BlockStatus` enum from `types.ts`. -/
inductive BlockStatus where
  | purchased | gantry | cutting | processing | resining | completed
  | inStockyard | sold
  deriving DecidableEq, Repr

/-- `ProcessingStage` from `types.ts`. -/
inductive ProcessingStage where
  | field | resinPlant
  deriving DecidableEq, Repr

/-- `ResinTreatmentType` from `types.ts`. -/
inductive ResinTreatmentType where
  | resin | gp | cc
  deriving DecidableEq, Repr

/-- `PowerCut` from `types.ts`; `start`/`end` ISO strings are embedded as
integer epoch milliseconds (`new Date(s).getTime()`). -/
structure PowerCut where
  id : String
  startMs : ℤ
  endMs : ℤ
  durationMinutes : ℤ
  deriving DecidableEq, Repr

/-- `Block` from `types.ts`.  Timestamps used in arithmetic are `Option ℤ`
(epoch ms, `none` for null/undefined); date strings only copied around stay
`String`; optional text fields that the code clears to `''` are `String`
with `""` for absent. -/
structure Block where
  id : String
  jobNo : String
  company : String
  material : String
  minesMarka : String
  length : ℚ
  width : ℚ
  height : ℚ
  weight : ℚ
  arrivalDate : String
  status : BlockStatus
  isPriority : Bool
  isToBeCut : Bool
  assignedMachineId : Option String
  cutByMachine : Option String
  enteredBy : String
  country : String
  supplier : String
  forwarder : String
  shipmentGroup : String
  loadingDate : String
  expectedArrivalDate : String
  thickness : Option String
  preCuttingProcess : String
  isSentToResin : Bool
  startTime : Option ℤ
  endTime : Option ℤ
  powerCuts : List PowerCut
  totalCuttingTimeMinutes : Option ℤ
  slabLength : ℚ
  slabWidth : ℚ
  slabCount : ℚ
  totalSqFt : ℚ
  processingStage : Option ProcessingStage
  processingStartedAt : Option ℤ
  resinStartTime : Option ℤ
  resinEndTime : Option ℤ
  resinPowerCuts : List PowerCut
  resinTreatmentType : Option ResinTreatmentType
  stockyardLocation : String
  transferredToYardAt : String
  msp : String
  soldTo : String
  billNo : String
  soldAt : String
  deriving DecidableEq, Repr

/-- A blank record used to build concrete test blocks. -/
def blankBlock : Block where
  id := ""
  jobNo := ""
  company := ""
  material := ""
  minesMarka := ""
  length := 0
  width := 0
  height := 0
  weight := 0
  arrivalDate := ""
  status := BlockStatus.purchased
  isPriority := false
  isToBeCut := false
  assignedMachineId := none
  cutByMachine := none
  enteredBy := ""
  country := ""
  supplier := ""
  forwarder := ""
  shipmentGroup := ""
  loadingDate := ""
  expectedArrivalDate := ""
  thickness := none
  preCuttingProcess := "None"
  isSentToResin := false
  startTime := none
  endTime := none
  powerCuts := []
  totalCuttingTimeMinutes := none
  slabLength := 0
  slabWidth := 0
  slabCount := 0
  totalSqFt := 0
  processingStage := none
  processingStartedAt := none
  resinStartTime := none
  resinEndTime := none
  resinPowerCuts := []
  resinTreatmentType := none
  stockyardLocation := ""
  transferredToYardAt := ""
  msp := ""
  soldTo := ""
  billNo := ""
  soldAt := ""

/-- Validation errors named by the spec's error taxonomy. -/
inductive OpError where
  | invalidQuantity
  | duplicateIdentifier
  deriving DecidableEq, Repr

/-! ## Permission gate (`services/db.ts`, `checkPermission`) -/

/-- `str.replace(/[^a-zA-Z0-9]/g, '').toUpperCase()` from `checkPermission`. -/
def normStr (s : String) : String :=
  ⟨(s.data.filter Char.isAlphanum).map Char.toUpper⟩

/-- `checkPermission(staff, company)` from `services/db.ts`:
`if (!staff || staff === 'GUEST') return false; if (staff === 'VAIBHAV')
return true; return normalize(company) === normalize(staff)`.
The JS falsy test `!staff` also rejects the empty string. -/
def checkPermission (staff : Option String) (company : String) : Bool :=
  match staff with
  | none => false
  | some s =>
    if s = "" ∨ s = "GUEST" then false
    else if s = "VAIBHAV" then true
    else decide (normStr company = normStr s)

/-! ## Collection-level update (`services/db.ts`, `db.updateBlock`) -/

/-- `db.updateBlock(id, fields)`: applies `f` to the record whose `id`
matches, leaving every other record untouched; no validation of any kind. -/
def updateList (bs : List Block) (id : String) (f : Block → Block) : List Block :=
  bs.map (fun b => if b.id = id then f b else b)

/-- `db.updateBlock(id, { status })`: overwrite just the status field. -/
def updateStatus (s : BlockStatus) (b : Block) : Block := { b with status := s }

/-- A status-only `db.updateBlock` call on the collection. -/
def updateBlockStatus (bs : List Block) (id : String) (s : BlockStatus) : List Block :=
  updateList bs id (updateStatus s)

/-- Modelled from the spec: the directed edge set of the §4.2 state machine,
including its explicit undo edges.  The source has no such table — transition
legality is enforced only by which UI buttons each screen exposes. -/
def specLegalEdge : BlockStatus → BlockStatus → Bool
  | BlockStatus.purchased, BlockStatus.gantry => true
  | BlockStatus.gantry, BlockStatus.cutting => true
  | BlockStatus.cutting, BlockStatus.gantry => true
  | BlockStatus.cutting, BlockStatus.processing => true
  | BlockStatus.processing, BlockStatus.resining => true
  | BlockStatus.resining, BlockStatus.processing => true
  | BlockStatus.resining, BlockStatus.completed => true
  | BlockStatus.processing, BlockStatus.completed => true
  | BlockStatus.completed, BlockStatus.inStockyard => true
  | BlockStatus.gantry, BlockStatus.sold => true
  | BlockStatus.processing, BlockStatus.sold => true
  | BlockStatus.inStockyard, BlockStatus.sold => true
  | _, _ => false

/-! ## Stockyard partial area sale (`Stockyard`, `handleExecuteSale`) -/

/-- The sale modal's form state (`saleFormData`); `soldSqFt` is the parsed
numeric input. -/
structure SaleForm where
  soldTo : String
  billNo : String
  soldSqFt : ℚ
  deriving DecidableEq, Repr

/-- `Date.now().toString().slice(-4)`: the last four characters (the whole
string when shorter). -/
def sliceLast4 (s : String) : String :=
  ⟨s.data.drop (s.data.length - 4)⟩

/-- The `-P` suffix digits for a split record's job number. -/
def saleSuffix (nowMs : ℕ) : String := sliceLast4 (toString nowMs)

/-- Single-block branch of `handleExecuteSale` in the Stockyard component:
round the request and the stock to 2 decimals, reject a request above stock,
split when strictly below, sell in full at equality.  Returns the optionally
created sold part and the (possibly updated) original record. -/
def executeSaleArea (b : Block) (f : SaleForm) (freshId : String) (nowMs : ℕ)
    (soldAt : String) : Except OpError (Option Block × Block) :=
  if round2 f.soldSqFt > round2 b.totalSqFt then
    Except.error OpError.invalidQuantity
  else if round2 f.soldSqFt < round2 b.totalSqFt then
    Except.ok
      (some
        { b with
          id := freshId
          jobNo := b.jobNo ++ "-P" ++ saleSuffix nowMs
          status := BlockStatus.sold
          totalSqFt := round2 f.soldSqFt
          soldTo := jsToUpper f.soldTo
          billNo := jsToUpper f.billNo
          soldAt := soldAt
          slabCount :=
            (jsRound (b.slabCount * (round2 f.soldSqFt / round2 b.totalSqFt)) : ℚ) },
        { b with
          totalSqFt := round2 (round2 b.totalSqFt - round2 f.soldSqFt)
          slabCount :=
            b.slabCount -
              (jsRound (b.slabCount * (round2 f.soldSqFt / round2 b.totalSqFt)) : ℚ) })
  else
    Except.ok (none,
      { b with
        status := BlockStatus.sold
        soldTo := jsToUpper f.soldTo
        billNo := jsToUpper f.billNo
        soldAt := soldAt })

/-! ## Stockyard edit (`Stockyard`, `handleSaveEdit`) -/

/-- The fields written by the Stockyard edit modal. -/
structure YardEditForm where
  jobNo : String
  company : String
  material : String
  minesMarka : String
  msp : String
  slabLength : ℚ
  slabWidth : ℚ
  slabCount : ℚ
  totalSqFt : ℚ
  weight : ℚ
  deriving DecidableEq, Repr

/-- `handleSaveEdit`: uppercase the text fields and write them through
`db.updateBlock` — no uniqueness check on the (possibly renamed) `jobNo`. -/
def applyYardEdit (e : YardEditForm) (b : Block) : Block :=
  { b with
    jobNo := jsToUpper e.jobNo
    company := jsToUpper e.company
    material := jsToUpper e.material
    minesMarka := jsToUpper e.minesMarka
    msp := jsToUpper e.msp
    slabLength := e.slabLength
    slabWidth := e.slabWidth
    slabCount := e.slabCount
    totalSqFt := e.totalSqFt
    weight := e.weight }

/-- The Stockyard edit handler applied to the collection. -/
def yardSaveEdit (bs : List Block) (id : String) (e : YardEditForm) : List Block :=
  updateList bs id (applyYardEdit e)

/-- Uniqueness invariant: no two records share an uppercased `jobNo`. -/
def jobNoUnique (bs : List Block) : Prop :=
  (bs.map (fun b => jsToUpper b.jobNo)).Nodup

/-! ## Gantry weight sale (`GantryStock`, `handleExecuteSale`) -/

/-- The Gantry sale modal's form state; `soldWeight` is the parsed numeric
input, `0` when the field is empty or non-numeric (JS `Number('') = 0`). -/
structure WeightSaleForm where
  soldTo : String
  billNo : String
  soldWeight : ℚ
  deriving DecidableEq, Repr

/-- The per-record update of the Gantry weight sale: `finalWeight =
Number(soldWeight) || block.weight`, `totalSqFt = 0` as the
weight-denominated-sale sentinel, transition to Sold, stamp the sale
fields.  The record is overwritten; nothing new is created. -/
def applyWeightSale (f : WeightSaleForm) (soldAt : String) (b : Block) : Block :=
  let finalWeight := if f.soldWeight = 0 then b.weight else f.soldWeight
  { b with
    status := BlockStatus.sold
    soldTo := jsToUpper f.soldTo
    billNo := jsToUpper f.billNo
    weight := finalWeight
    totalSqFt := 0
    soldAt := soldAt }

/-- `handleExecuteSale` of the Gantry screen on the collection: one
`db.updateBlock` call, no `db.addBlock`. -/
def gantryWeightSale (bs : List Block) (id : String) (f : WeightSaleForm)
    (soldAt : String) : List Block :=
  updateList bs id (applyWeightSale f soldAt)

/-! ## Cutting machines (`MachineCard` in the machine-status screen) -/

/-- Total power-cut window length in milliseconds:
`Σ (new Date(pc.end).getTime() − new Date(pc.start).getTime())`. -/
def cutsWindowMs (cuts : List PowerCut) : ℤ :=
  (cuts.map (fun pc => pc.endMs - pc.startMs)).sum

/-- The live ticker of `MachineCard`: `diff = now − start − totalDowntimeMs`,
clamped to zero when negative. -/
def machineElapsedDisplayMs (startMs nowMs : ℤ) (cuts : List PowerCut) : ℤ :=
  let diff := nowMs - startMs - cutsWindowMs cuts
  if diff < 0 then 0 else diff

/-- `handleAddPowerCut`: build the immutable cut entry; `durationMinutes` is
precomputed once as `Math.round((end − start) / 60000)`. -/
def mkPowerCut (id : String) (startMs endMs : ℤ) : PowerCut :=
  { id := id, startMs := startMs, endMs := endMs
    durationMinutes := jsRound (((endMs - startMs : ℤ) : ℚ) / 60000) }

/-- `handleFinalizeFinish`: net duration in minutes =
`Math.round((end − start − totalDowntimeMs) / 60000)` — note: no clamping. -/
def netDurationMinutes (startMs endMs : ℤ) (cuts : List PowerCut) : ℤ :=
  jsRound (((endMs - startMs - cutsWindowMs cuts : ℤ) : ℚ) / 60000)

/-- `handleFinalizeFinish` on the record: requires a start time (the handler
returns early otherwise), stores the net duration, moves to Processing,
clears the machine assignment, stamps `cutByMachine` with the card title. -/
def finalizeFinish (b : Block) (title : String) (endMs : ℤ) : Block :=
  match b.startTime with
  | none => b
  | some s =>
    { b with
      status := BlockStatus.processing
      assignedMachineId := none
      cutByMachine := some title
      endTime := some endMs
      totalCuttingTimeMinutes := some (netDurationMinutes s endMs b.powerCuts)
      processingStage := some ProcessingStage.field
      processingStartedAt := some endMs }

/-! ## Purchase intake and factory arrival (procurement screen) -/

/-- The new-purchase form. -/
structure PurchaseForm where
  jobNo : String
  supplier : String
  material : String
  country : String
  weight : ℚ
  deriving DecidableEq, Repr

/-- `handleSubmitPurchase`: reject when some existing record's uppercased
`jobNo` equals the submitted one uppercased, else insert the new `Purchased`
record (company fixed to `HI-LINE`, text fields uppercased and trimmed). -/
def submitPurchase (bs : List Block) (freshId : String) (f : PurchaseForm)
    (today staff : String) : Except OpError (List Block) :=
  if bs.any (fun b => jsToUpper b.jobNo == jsToUpper f.jobNo) then
    Except.error OpError.duplicateIdentifier
  else
    Except.ok
      ({ blankBlock with
          id := freshId
          jobNo := jsTrim (jsToUpper f.jobNo)
          company := "HI-LINE"
          supplier := jsTrim (jsToUpper f.supplier)
          material := jsTrim (jsToUpper f.material)
          country := jsTrim (jsToUpper f.country)
          weight := f.weight
          status := BlockStatus.purchased
          arrivalDate := today
          enteredBy := staff } :: bs)

/-- The arrival form: raw-block dimensions plus the mines marka. -/
structure ArrivalDims where
  length : ℚ
  width : ℚ
  height : ℚ
  minesMarka : String
  deriving DecidableEq, Repr

/-- `handleFinalArrival`: move the Purchased block to Gantry, set L/W/H and
marka, refresh the arrival date, and clear the four transit fields
(`loadingDate`, `forwarder`, `expectedArrivalDate`, `shipmentGroup`) to `''`.
`country` and `supplier` are not touched. -/
def finalArrival (b : Block) (d : ArrivalDims) (today : String) : Block :=
  { b with
    status := BlockStatus.gantry
    length := d.length
    width := d.width
    height := d.height
    minesMarka := jsTrim (jsToUpper d.minesMarka)
    arrivalDate := today
    loadingDate := ""
    forwarder := ""
    expectedArrivalDate := ""
    shipmentGroup := "" }

/-! ## Resin line batch operations (`ResinLineCard` in `ResinLine.tsx`) -/

/-- `handleLoadBlocks` per record: a selected block is started on the line
with the shared start time and treatment type and an empty cut log. -/
def loadOne (sel : List String) (startMs : ℤ) (tt : ResinTreatmentType)
    (b : Block) : Block :=
  if sel.contains b.id then
    { b with
      status := BlockStatus.resining
      resinStartTime := some startMs
      resinPowerCuts := []
      resinTreatmentType := some tt }
  else b

/-- `handleAddPowerCut` per record: the same cut entry is appended to every
active (Resining) block's `resinPowerCuts`. -/
def cutOne (pc : PowerCut) (b : Block) : Block :=
  if b.status = BlockStatus.resining then
    { b with resinPowerCuts := b.resinPowerCuts ++ [pc] }
  else b

/-- `handleFinishResin` per record: every active block gets the shared end
time and moves to Completed. -/
def finishOne (endMs : ℤ) (b : Block) : Block :=
  if b.status = BlockStatus.resining then
    { b with
      status := BlockStatus.completed
      resinEndTime := some endMs
      processingStage := some ProcessingStage.field }
  else b

/-- `handleUndoResin` per record: every active block returns to Processing
with the resin fields nulled out. -/
def undoOne (b : Block) : Block :=
  if b.status = BlockStatus.resining then
    { b with
      status := BlockStatus.processing
      resinStartTime := none
      resinPowerCuts := []
      resinTreatmentType := none }
  else b

/-- The four batch operations the resin line card can issue. -/
inductive ResinOp where
  | load (sel : List String) (startMs : ℤ) (tt : ResinTreatmentType)
  | addCut (pc : PowerCut)
  | finish (endMs : ℤ)
  | undo
  deriving DecidableEq, Repr

/-- One resin-line handler invocation on the collection.  `load` refuses when
the line is occupied (`isLineOccupied`) or nothing is selected; the other
three map over the active blocks (a no-op on an empty line, matching the
handlers' early returns). -/
def applyResinOp (op : ResinOp) (bs : List Block) : List Block :=
  match op with
  | ResinOp.load sel startMs tt =>
    if bs.any (fun b => decide (b.status = BlockStatus.resining)) then bs
    else if sel.isEmpty then bs
    else bs.map (loadOne sel startMs tt)
  | ResinOp.addCut pc => bs.map (cutOne pc)
  | ResinOp.finish endMs => bs.map (finishOne endMs)
  | ResinOp.undo => bs.map undoOne

/-- A sequence of resin-line handler invocations. -/
def runResinOps (ops : List ResinOp) (bs : List Block) : List Block :=
  ops.foldl (fun s op => applyResinOp op s) bs

/-- Batch consistency: all active (Resining) members agree on their resin
start time, treatment type and power-cut log. -/
def resinSync (bs : List Block) : Prop :=
  ∀ a ∈ bs, ∀ b ∈ bs,
    a.status = BlockStatus.resining → b.status = BlockStatus.resining →
      a.resinStartTime = b.resinStartTime ∧
      a.resinTreatmentType = b.resinTreatmentType ∧
      a.resinPowerCuts = b.resinPowerCuts

/-! ## Concrete records used by counterexamples and witnesses -/

/-- Spec example block `JOB-1`: 100 sqft, 10 slabs, in the stockyard. -/
def yardBlockEx : Block :=
  { blankBlock with
    id := "yard-1", jobNo := "JOB-1", company := "HI-LINE",
    material := "GRANITE", status := BlockStatus.inStockyard,
    totalSqFt := 100, slabCount := 10, weight := 8 }

/-- Gantry block of the spec's weight-sale example (`weight = 5.0`). -/
def gantryBlockEx : Block :=
  { blankBlock with
    id := "gan-1", jobNo := "JOB-2", company := "HI-LINE",
    material := "GRANITE", status := BlockStatus.gantry, weight := 5 }

/-- Cutting block of the spec's timing example: start at minute 0, one
15-minute power cut from minute 30 to 45. -/
def cutBlockEx : Block :=
  { blankBlock with
    id := "cut-1", jobNo := "JOB-3", company := "HI-LINE",
    status := BlockStatus.cutting, assignedMachineId := some "Machine 1",
    startTime := some 0,
    powerCuts := [{ id := "pc-1", startMs := 1800000, endMs := 2700000,
                    durationMinutes := 15 }] }

/-- Cutting block whose single logged power cut (60 min) exceeds the
start-to-finish span (10 min). -/
def skewCutBlockEx : Block :=
  { blankBlock with
    id := "cut-2", jobNo := "JOB-4", company := "HI-LINE",
    status := BlockStatus.cutting, startTime := some 0,
    powerCuts := [{ id := "pc-2", startMs := 0, endMs := 3600000,
                    durationMinutes := 60 }] }

/-- A Purchased block still carrying all six purchase-stage logistics
fields. -/
def purchasedBlockEx : Block :=
  { blankBlock with
    id := "pur-1", jobNo := "JOB-5", company := "HI-LINE",
    status := BlockStatus.purchased,
    country := "NAMIBIA", supplier := "ACME MINES", forwarder := "FWD CO",
    shipmentGroup := "SHIP-7", loadingDate := "2025-01-01",
    expectedArrivalDate := "2025-02-01", weight := 12 }

/-- A sold block (terminal state: no outgoing edge in §4.2). -/
def soldBlockEx : Block :=
  { blankBlock with
    id := "sold-1", jobNo := "JOB-6", status := BlockStatus.sold,
    soldTo := "BUYER", billNo := "B-1", soldAt := "2025-03-01" }

/-- Two yard blocks with distinct job numbers, for the rename
counterexample. -/
def yardPairEx : List Block :=
  [{ blankBlock with
      id := "u-1", jobNo := "A1",
      status := BlockStatus.inStockyard },
   { blankBlock with
      id := "u-2", jobNo := "B1",
      status := BlockStatus.inStockyard }]

/-- Edit form renaming a block to `a1` (collides with `A1` after
uppercasing). -/
def renameEditEx : YardEditForm :=
  { jobNo := "a1", company := "HI-LINE", material := "GRANITE",
    minesMarka := "", msp := "", slabLength := 0, slabWidth := 0,
    slabCount := 3, totalSqFt := 30, weight := 2 }

/-- A purchase form whose job number collides with nothing in
`yardPairEx`. -/
def purchaseFormEx : PurchaseForm :=
  { jobNo := "C7", supplier := "S", material := "M", country := "IN",
    weight := 4 }

/-- Three Processing blocks flagged for resin, for the batch witness. -/
def resinTrioEx : List Block :=
  [{ blankBlock with
      id := "r-1", jobNo := "R1",
      status := BlockStatus.processing, isSentToResin := true },
   { blankBlock with
      id := "r-2", jobNo := "R2",
      status := BlockStatus.processing, isSentToResin := true },
   { blankBlock with
      id := "r-3", jobNo := "R3",
      status := BlockStatus.processing, isSentToResin := true }]

/-- The batch run of the spec's resin example: load all three together, log
one 15-minute power cut, finish the batch. -/
def resinOpsEx : List ResinOp :=
  [ResinOp.load ["r-1", "r-2", "r-3"] 1000 ResinTreatmentType.resin,
   ResinOp.addCut { id := "rpc-1", startMs := 600000, endMs := 1500000,
                    durationMinutes := 15 },
   ResinOp.finish 7200000]

instance (bs : List Block) : Decidable (resinSync bs) := by
  unfold resinSync; infer_instance

instance (bs : List Block) : Decidable (jobNoUnique bs) := by
  unfold jobNoUnique; infer_instance

/-! ## Arithmetic lemmas about the JavaScript rounding helpers -/

theorem floor_half_eq_zero : ⌊(1/2 : ℚ)⌋ = 0 := by norm_num

theorem jsRound_intCast (n : ℤ) : jsRound ((n : ℚ)) = n := by
  unfold jsRound
  rw [add_comm, Int.floor_add_int, floor_half_eq_zero, zero_add]

theorem jsFixedRound_intCast (n : ℤ) : jsFixedRound ((n : ℚ)) = n := by
  unfold jsFixedRound
  split
  · have h : -((n : ℚ)) = ((-n : ℤ) : ℚ) := by push_cast; ring
    rw [h, add_comm, Int.floor_add_int, floor_half_eq_zero, zero_add, neg_neg]
  · rw [add_comm, Int.floor_add_int, floor_half_eq_zero, zero_add]

theorem round2_int_div (n : ℤ) : round2 ((n : ℚ) / 100) = (n : ℚ) / 100 := by
  unfold round2
  rw [div_mul_cancel₀ _ (by norm_num : (100 : ℚ) ≠ 0), jsFixedRound_intCast]

theorem round2_is_int_div (q : ℚ) : ∃ n : ℤ, round2 q = (n : ℚ) / 100 :=
  ⟨jsFixedRound (q * 100), rfl⟩

theorem round2_sub_round2 (a b : ℚ) :
    round2 (round2 a - round2 b) = round2 a - round2 b := by
  obtain ⟨n, hn⟩ := round2_is_int_div a
  obtain ⟨m, hm⟩ := round2_is_int_div b
  rw [hn, hm]
  have h : (n : ℚ) / 100 - (m : ℚ) / 100 = ((n - m : ℤ) : ℚ) / 100 := by
    push_cast; ring
  rw [h, round2_int_div]

theorem netDurationMinutes_exact (s e : ℤ) (cuts : List PowerCut) (m : ℤ)
    (h : e - s - cutsWindowMs cuts = 60000 * m) :
    netDurationMinutes s e cuts = m := by
  unfold netDurationMinutes
  rw [h]
  have h2 : ((60000 * m : ℤ) : ℚ) / 60000 = (m : ℚ) := by push_cast; ring
  rw [h2, jsRound_intCast]

/-! ## C1 — permission gate -/

/-- Claim C1 (amended): `canWrite` is false for every company when the
operator is `GUEST` (likewise for a null or empty operator), true for every
company when the operator is the reserved administrator name, and for every
other non-empty operator true iff the two names agree after stripping
non-alphanumerics and uppercasing. -/
theorem permission_gate_rules (staff company : String) :
    checkPermission none company = false ∧
    checkPermission (some "GUEST") company = false ∧
    checkPermission (some "VAIBHAV") company = true ∧
    (staff ≠ "" → staff ≠ "GUEST" → staff ≠ "VAIBHAV" →
      (checkPermission (some staff) company = true ↔
        normStr staff = normStr company)) := by
  refine ⟨rfl, rfl, rfl, ?_⟩
  intro h1 h2 h3
  show (if staff = "" ∨ staff = "GUEST" then false
        else if staff = "VAIBHAV" then true
        else decide (normStr company = normStr staff)) = true ↔
      normStr staff = normStr company
  rw [if_neg (by simp [h1, h2]), if_neg h3]
  simp [decide_eq_true_iff, eq_comm]

/-- Closed check for C1: the gate at a concrete non-guest, non-admin
operator whose normalized name matches the company. -/
theorem permission_gate_rules_witness :
    checkPermission (some "HILINE") "HI-LINE" = true :=
  ((permission_gate_rules "HILINE" "HI-LINE").2.2.2 (by decide) (by decide)
    (by decide)).mpr (by decide)

/-- Counterexample to C1 as stated: the empty-string operator is neither
`GUEST` nor the administrator and normalizes equal to the empty company
name, yet `checkPermission` returns false (the JS falsy test `!staff`
rejects `''`). -/
theorem permission_gate_empty_operator :
    ("" : String) ≠ "GUEST" ∧ ("" : String) ≠ "VAIBHAV" ∧
    normStr "" = normStr "" ∧ checkPermission (some "") "" = false := by
  decide

/-! ## C8 — factory arrival -/

/-- Claim C8 (amended): recording factory arrival moves the block to Gantry,
sets the dimensions and marka, and clears the four transit fields
(`loadingDate`, `forwarder`, `expectedArrivalDate`, `shipmentGroup`);
`country` and `supplier` are left unchanged. -/
theorem final_arrival_clears_transit (b : Block) (d : ArrivalDims)
    (today : String) :
    (finalArrival b d today).loadingDate = "" ∧
    (finalArrival b d today).forwarder = "" ∧
    (finalArrival b d today).expectedArrivalDate = "" ∧
    (finalArrival b d today).shipmentGroup = "" ∧
    (finalArrival b d today).country = b.country ∧
    (finalArrival b d today).supplier = b.supplier ∧
    (finalArrival b d today).status = BlockStatus.gantry ∧
    (finalArrival b d today).length = d.length ∧
    (finalArrival b d today).width = d.width ∧
    (finalArrival b d today).height = d.height ∧
    (finalArrival b d today).minesMarka = jsTrim (jsToUpper d.minesMarka) ∧
    (finalArrival b d today).arrivalDate = today :=
  ⟨rfl, rfl, rfl, rfl, rfl, rfl, rfl, rfl, rfl, rfl, rfl, rfl⟩

/-- Counterexample to C8 as stated: after arrival the purchase-stage
`country` and `supplier` fields are still populated, so not all six
logistics fields are cleared. -/
theorem final_arrival_keeps_country_supplier :
    (finalArrival purchasedBlockEx
        { length := 100, width := 60, height := 50, minesMarka := "M7" }
        "2025-02-02").country = "NAMIBIA" ∧
    (finalArrival purchasedBlockEx
        { length := 100, width := 60, height := 50, minesMarka := "M7" }
        "2025-02-02").supplier = "ACME MINES" ∧
    ("NAMIBIA" : String) ≠ "" ∧ ("ACME MINES" : String) ≠ "" := by
  refine ⟨rfl, rfl, by decide, by decide⟩

/-! ## C9 — transition validation -/

/-- Claim C9 (amended): `db.updateBlock` performs no transition validation:
a status-only update rewrites the matching record's status to the requested
value whatever the current status is (the §4.2 edge set is enforced only by
which buttons the UI exposes), and every other record keeps its status. -/
theorem update_status_unchecked (bs : List Block) (id : String)
    (s : BlockStatus) :
    (updateBlockStatus bs id s).map Block.status =
      bs.map (fun b => if b.id = id then s else b.status) := by
  unfold updateBlockStatus updateList
  rw [List.map_map]
  congr 1
  funext b
  by_cases h : b.id = id <;> simp [h, updateStatus, Function.comp]

/-- Counterexample to C9 as stated: `Sold → Purchased` is not an edge of the
§4.2 state machine, yet the status update succeeds and mutates the record
instead of failing with `InvalidTransition`. -/
theorem update_status_illegal_edge_applied :
    specLegalEdge BlockStatus.sold BlockStatus.purchased = false ∧
    updateBlockStatus [soldBlockEx] "sold-1" BlockStatus.purchased =
      [{ soldBlockEx with status := BlockStatus.purchased }] ∧
    ({ soldBlockEx with status := BlockStatus.purchased } : Block) ≠
      soldBlockEx := by
  refine ⟨rfl, ?_, ?_⟩
  · simp [updateBlockStatus, updateList, updateStatus, soldBlockEx]
  · intro h
    have h2 := congrArg Block.status h
    simp [soldBlockEx] at h2

/-! ## C4 — Gantry weight sale -/

/-- Claim C4: a weight-based sale of a Gantry-stage raw block creates no new
record — the collection is a pointwise map of the old one — and the matching
record is overwritten in place with the sold weight, `totalSqFt = 0` as the
weight-denominated-sale sentinel, status `Sold`, and the stamped
`soldTo`/`billNo`/`soldAt`. -/
theorem gantry_weight_sale_overwrites (bs : List Block) (id : String)
    (f : WeightSaleForm) (soldAt : String) (hw : f.soldWeight ≠ 0) :
    gantryWeightSale bs id f soldAt =
      bs.map (fun b =>
        if b.id = id then
          { b with
            status := BlockStatus.sold
            soldTo := jsToUpper f.soldTo
            billNo := jsToUpper f.billNo
            weight := f.soldWeight
            totalSqFt := 0
            soldAt := soldAt }
        else b) ∧
    (gantryWeightSale bs id f soldAt).length = bs.length := by
  constructor
  · unfold gantryWeightSale updateList
    congr 1
    funext b
    by_cases h : b.id = id <;> simp [h, applyWeightSale, hw]
  · unfold gantryWeightSale updateList
    exact List.length_map bs _

/-- Closed check for C4: the spec's example — a weight-sale of `5.0` on a
Gantry block with `weight = 5.0` yields that same record with
`status = Sold`, `totalSqFt = 0`, `weight = 5.0`, and no extra record. -/
theorem gantry_weight_sale_witness :
    gantryWeightSale [gantryBlockEx] "gan-1"
        { soldTo := "BUYER", billNo := "INV-9", soldWeight := 5 }
        "2025-03-01" =
      [{ gantryBlockEx with
          status := BlockStatus.sold
          soldTo := "BUYER"
          billNo := "INV-9"
          weight := 5
          totalSqFt := 0
          soldAt := "2025-03-01" }] := by
  rw [(gantry_weight_sale_overwrites [gantryBlockEx] "gan-1"
        { soldTo := "BUYER", billNo := "INV-9", soldWeight := 5 }
        "2025-03-01" (by norm_num)).1]
  simp [gantryBlockEx]
  exact ⟨by decide, by decide⟩

/-! ## C5 — cutting finish net time -/

/-- Claim C5: finishing a Cutting block stores, in
`totalCuttingTimeMinutes`, the start-to-end span minus the summed power-cut
windows expressed in minutes, clears `assignedMachineId`, stamps
`cutByMachine` with the machine title, and moves the block to Processing
with the chosen end timestamp. -/
theorem cutting_finish_net_duration (b : Block) (title : String)
    (endMs s m : ℤ) (hs : b.startTime = some s)
    (hm : endMs - s - cutsWindowMs b.powerCuts = 60000 * m) :
    (finalizeFinish b title endMs).totalCuttingTimeMinutes = some m ∧
    (finalizeFinish b title endMs).assignedMachineId = none ∧
    (finalizeFinish b title endMs).cutByMachine = some title ∧
    (finalizeFinish b title endMs).status = BlockStatus.processing ∧
    (finalizeFinish b title endMs).endTime = some endMs := by
  unfold finalizeFinish
  rw [hs]
  exact ⟨congrArg some (netDurationMinutes_exact s endMs b.powerCuts m hm),
    rfl, rfl, rfl, rfl⟩

/-- Closed check for C5: the spec's example — start at 09:00 (minute 0), one
15-minute power cut 09:30–09:45, finish at 11:00 (minute 120) gives a net
105 minutes. -/
theorem cutting_finish_witness :
    (finalizeFinish cutBlockEx "Machine 1" 7200000).totalCuttingTimeMinutes
        = some 105 ∧
    (finalizeFinish cutBlockEx "Machine 1" 7200000).assignedMachineId
        = none ∧
    (finalizeFinish cutBlockEx "Machine 1" 7200000).cutByMachine
        = some "Machine 1" ∧
    (finalizeFinish cutBlockEx "Machine 1" 7200000).status
        = BlockStatus.processing ∧
    (finalizeFinish cutBlockEx "Machine 1" 7200000).endTime = some 7200000 :=
  cutting_finish_net_duration cutBlockEx "Machine 1" 7200000 0 105 rfl
    (by decide)

/-! ## C6 — downtime non-negativity -/

/-- Claim C6 (amended): the live elapsed display clamps to zero whenever
`now − start − downtime` is negative, but the finalized net duration stored
at cutting completion is not clamped: a logged power cut exceeding the
start-to-finish span produces a negative stored `totalCuttingTimeMinutes`. -/
theorem elapsed_clamped_finalize_unclamped :
    (∀ (startMs nowMs : ℤ) (cuts : List PowerCut),
        0 ≤ machineElapsedDisplayMs startMs nowMs cuts) ∧
    (finalizeFinish skewCutBlockEx "Machine 1" 600000).totalCuttingTimeMinutes
      = some (-50) := by
  constructor
  · intro s n cs
    show 0 ≤ if n - s - cutsWindowMs cs < 0 then 0 else n - s - cutsWindowMs cs
    split
    · exact le_refl 0
    · omega
  · have h := netDurationMinutes_exact 0 600000 skewCutBlockEx.powerCuts (-50)
      (by decide)
    show some (netDurationMinutes 0 600000 skewCutBlockEx.powerCuts)
      = some (-50)
    exact congrArg some h

/-- Counterexample to C6 as stated: the finalized net duration persisted by
the cutting finish handler is negative when the logged power-cut window
exceeds the start-to-finish span (60-minute cut inside a 10-minute run). -/
theorem finalize_stores_negative_duration :
    (finalizeFinish skewCutBlockEx "Machine 1" 600000).totalCuttingTimeMinutes
        = some (-50) ∧
    (-50 : ℤ) < 0 := by
  constructor
  · have h := netDurationMinutes_exact 0 600000 skewCutBlockEx.powerCuts (-50)
      (by decide)
    show some (netDurationMinutes 0 600000 skewCutBlockEx.powerCuts)
      = some (-50)
    exact congrArg some h
  · decide

/-! ## C2 — partial sale split -/

theorem sliceLast4_length (s : String) (h : 4 ≤ s.length) :
    (sliceLast4 s).length = 4 := by
  unfold sliceLast4
  have hd : s.data.length = s.length := rfl
  show (s.data.drop (s.data.length - 4)).length = 4
  rw [List.length_drop]
  omega

/-- Claim C2: a partial area sale with `0 < requested < current` returns a
freshly identified `Sold` record carrying the requested area and the
proportionally rounded slab count, with a `-P`-suffixed four-digit job
number, and shrinks the original in place so that area (to two decimals)
and slab count are conserved. -/
theorem area_sale_split_conserves (b : Block) (f : SaleForm) (freshId soldAt : String)
    (nowMs : ℕ)
    (h0 : 0 < round2 f.soldSqFt)
    (h1 : round2 f.soldSqFt < round2 b.totalSqFt)
    (hid : freshId ≠ b.id)
    (h4 : 4 ≤ (toString nowMs).length) :
    ∃ np upd,
      executeSaleArea b f freshId nowMs soldAt = Except.ok (some np, upd) ∧
      np.id = freshId ∧ np.id ≠ b.id ∧ upd.id = b.id ∧
      np.jobNo = b.jobNo ++ "-P" ++ saleSuffix nowMs ∧
      (saleSuffix nowMs).length = 4 ∧
      np.status = BlockStatus.sold ∧
      np.totalSqFt = round2 f.soldSqFt ∧ 0 < np.totalSqFt ∧
      np.slabCount =
        (jsRound (b.slabCount * (round2 f.soldSqFt / round2 b.totalSqFt)) : ℚ) ∧
      np.totalSqFt + upd.totalSqFt = round2 b.totalSqFt ∧
      np.slabCount + upd.slabCount = b.slabCount := by
  have hgt : ¬ round2 f.soldSqFt > round2 b.totalSqFt := not_lt.mpr h1.le
  unfold executeSaleArea
  rw [if_neg hgt, if_pos h1]
  refine ⟨_, _, rfl, rfl, hid, rfl, rfl, sliceLast4_length _ h4, rfl, rfl, h0,
    rfl, ?_, ?_⟩
  · show round2 f.soldSqFt + round2 (round2 b.totalSqFt - round2 f.soldSqFt)
      = round2 b.totalSqFt
    rw [round2_sub_round2]
    ring
  · show (jsRound (b.slabCount * (round2 f.soldSqFt / round2 b.totalSqFt)) : ℚ)
      + (b.slabCount -
          (jsRound (b.slabCount * (round2 f.soldSqFt / round2 b.totalSqFt)) : ℚ))
      = b.slabCount
    ring

/-- Closed check for C2: the spec's example — selling 60 sqft from `JOB-1`
(100 sqft, 10 slabs) splits off a `Sold` record and conserves area and
slab count. -/
theorem area_sale_split_conserves_witness :
    ∃ np upd,
      executeSaleArea yardBlockEx
          { soldTo := "BUYER", billNo := "INV-1", soldSqFt := 60 }
          "new-1" 17000001234 "2025-03-01" = Except.ok (some np, upd) ∧
      np.id = "new-1" ∧ np.id ≠ yardBlockEx.id ∧ upd.id = yardBlockEx.id ∧
      np.jobNo = yardBlockEx.jobNo ++ "-P" ++ saleSuffix 17000001234 ∧
      (saleSuffix 17000001234).length = 4 ∧
      np.status = BlockStatus.sold ∧
      np.totalSqFt = round2 60 ∧ 0 < np.totalSqFt ∧
      np.slabCount =
        (jsRound (yardBlockEx.slabCount *
          (round2 60 / round2 yardBlockEx.totalSqFt)) : ℚ) ∧
      np.totalSqFt + upd.totalSqFt = round2 yardBlockEx.totalSqFt ∧
      np.slabCount + upd.slabCount = yardBlockEx.slabCount :=
  area_sale_split_conserves yardBlockEx
    { soldTo := "BUYER", billNo := "INV-1", soldSqFt := 60 }
    "new-1" "2025-03-01" 17000001234
    (by norm_num [round2, jsFixedRound])
    (by show round2 60 < round2 yardBlockEx.totalSqFt
        norm_num [yardBlockEx, blankBlock, round2, jsFixedRound])
    (by decide) (by decide)

/-! ## C3 — sale quantity bound -/

/-- Claim C3 (amended): the partial area sale validates only the upper
bound: it fails with `InvalidQuantity` — performing no mutation — exactly
when the two-decimal-rounded request exceeds the two-decimal-rounded stock;
the lower bound `0 < requestedSqFt` is not checked. -/
theorem area_sale_upper_bound_only (b : Block) (f : SaleForm)
    (freshId soldAt : String) (nowMs : ℕ) :
    executeSaleArea b f freshId nowMs soldAt =
        Except.error OpError.invalidQuantity ↔
      round2 b.totalSqFt < round2 f.soldSqFt := by
  unfold executeSaleArea
  by_cases h : round2 f.soldSqFt > round2 b.totalSqFt
  · rw [if_pos h]
    exact iff_of_true rfl h
  · rw [if_neg h]
    refine iff_of_false ?_ h
    by_cases h2 : round2 f.soldSqFt < round2 b.totalSqFt
    · rw [if_pos h2]; intro hcontra; exact Except.noConfusion hcontra
    · rw [if_neg h2]; intro hcontra; exact Except.noConfusion hcontra

/-- Counterexample to C3 as stated: a requested quantity of `0` violates
the claimed lower bound `0 < requestedSqFt`, yet the sale proceeds (returns
a successful split) instead of failing. -/
theorem area_sale_zero_quantity_proceeds :
    ¬ 0 < round2 0 ∧
    (executeSaleArea yardBlockEx
        { soldTo := "B", billNo := "N", soldSqFt := 0 }
        "new-0" 1234 "T").isOk = true := by
  constructor
  · norm_num [round2, jsFixedRound]
  · show (executeSaleArea yardBlockEx
        { soldTo := "B", billNo := "N", soldSqFt := 0 }
        "new-0" 1234 "T").isOk = true
    unfold executeSaleArea
    have hr : round2 (0 : ℚ) = 0 := by norm_num [round2, jsFixedRound]
    have hc : round2 yardBlockEx.totalSqFt = 100 := by
      norm_num [yardBlockEx, blankBlock, round2, jsFixedRound]
    rw [show ({ soldTo := "B", billNo := "N", soldSqFt := 0 } : SaleForm).soldSqFt
          = 0 from rfl, hr, hc]
    rw [if_neg (by norm_num), if_pos (by norm_num)]
    rfl

/-! ## C7 — resin batch consistency -/

theorem loadOne_eq_or (sel : List String) (st : ℤ) (tt : ResinTreatmentType)
    (b : Block) :
    loadOne sel st tt b =
        { b with
          status := BlockStatus.resining
          resinStartTime := some st
          resinPowerCuts := []
          resinTreatmentType := some tt } ∨
      loadOne sel st tt b = b := by
  unfold loadOne
  split
  · exact Or.inl rfl
  · exact Or.inr rfl

theorem cutOne_status (pc : PowerCut) (b : Block) :
    (cutOne pc b).status = b.status := by
  unfold cutOne; split <;> rfl

theorem cutOne_startTime (pc : PowerCut) (b : Block) :
    (cutOne pc b).resinStartTime = b.resinStartTime := by
  unfold cutOne; split <;> rfl

theorem cutOne_type (pc : PowerCut) (b : Block) :
    (cutOne pc b).resinTreatmentType = b.resinTreatmentType := by
  unfold cutOne; split <;> rfl

theorem cutOne_cuts (pc : PowerCut) (b : Block)
    (h : b.status = BlockStatus.resining) :
    (cutOne pc b).resinPowerCuts = b.resinPowerCuts ++ [pc] := by
  unfold cutOne; rw [if_pos h]

theorem finishOne_not_resining (e : ℤ) (b : Block) :
    (finishOne e b).status ≠ BlockStatus.resining := by
  unfold finishOne
  split
  · intro hc; exact BlockStatus.noConfusion hc
  · next hne => exact hne

theorem undoOne_not_resining (b : Block) :
    (undoOne b).status ≠ BlockStatus.resining := by
  unfold undoOne
  split
  · intro hc; exact BlockStatus.noConfusion hc
  · next hne => exact hne

theorem any_resining_false (bs : List Block)
    (hocc : bs.any (fun b => decide (b.status = BlockStatus.resining)) = false) :
    ∀ x ∈ bs, x.status ≠ BlockStatus.resining := by
  intro x hx hxr
  have := List.any_eq_true.mpr
    (⟨x, hx, by simp [hxr]⟩ :
      ∃ y ∈ bs, (fun b => decide (b.status = BlockStatus.resining)) y = true)
  rw [hocc] at this
  exact Bool.noConfusion this

theorem resinSync_applyResinOp (op : ResinOp) (bs : List Block)
    (h : resinSync bs) : resinSync (applyResinOp op bs) := by
  cases op with
  | load sel st tt =>
    show resinSync
      (if bs.any (fun b => decide (b.status = BlockStatus.resining)) then bs
       else if sel.isEmpty then bs else bs.map (loadOne sel st tt))
    by_cases hocc :
        bs.any (fun b => decide (b.status = BlockStatus.resining)) = true
    · rw [if_pos hocc]; exact h
    · have hocc2 := eq_false_of_ne_true hocc
      rw [if_neg hocc]
      by_cases hsel : sel.isEmpty = true
      · rw [if_pos hsel]; exact h
      · rw [if_neg hsel]
        have hnone := any_resining_false bs hocc2
        intro a ha b hb hra hrb
        obtain ⟨a0, ha0, rfl⟩ := List.mem_map.mp ha
        obtain ⟨b0, hb0, rfl⟩ := List.mem_map.mp hb
        rcases loadOne_eq_or sel st tt a0 with hla | hla
        · rcases loadOne_eq_or sel st tt b0 with hlb | hlb
          · rw [hla, hlb]
            exact ⟨rfl, rfl, rfl⟩
          · rw [hlb] at hrb
            exact absurd hrb (hnone b0 hb0)
        · rw [hla] at hra
          exact absurd hra (hnone a0 ha0)
  | addCut pc =>
    intro a ha b hb hra hrb
    obtain ⟨a0, ha0, rfl⟩ := List.mem_map.mp ha
    obtain ⟨b0, hb0, rfl⟩ := List.mem_map.mp hb
    rw [cutOne_status] at hra hrb
    obtain ⟨h1, h2, h3⟩ := h a0 ha0 b0 hb0 hra hrb
    refine ⟨?_, ?_, ?_⟩
    · rw [cutOne_startTime, cutOne_startTime]; exact h1
    · rw [cutOne_type, cutOne_type]; exact h2
    · rw [cutOne_cuts pc a0 hra, cutOne_cuts pc b0 hrb, h3]
  | finish e =>
    intro a ha b hb hra hrb
    obtain ⟨a0, _, rfl⟩ := List.mem_map.mp ha
    exact absurd hra (finishOne_not_resining e a0)
  | undo =>
    intro a ha b hb hra hrb
    obtain ⟨a0, _, rfl⟩ := List.mem_map.mp ha
    exact absurd hra (undoOne_not_resining a0)

theorem resinSync_runResinOps (ops : List ResinOp) (bs : List Block)
    (h : resinSync bs) : resinSync (runResinOps ops bs) := by
  induction ops generalizing bs with
  | nil => exact h
  | cons op rest ih => exact ih (applyResinOp op bs) (resinSync_applyResinOp op bs h)

/-- Claim C7: batch resin treatment keeps the batch consistent.  Loading a
batch onto an unoccupied line gives every started block the same start time
and treatment type and an empty cut log; a logged power cut is appended
identically to every active block; finishing stamps every active block with
the same end time and `Completed`; and consequently, after any sequence of
batch operations from a consistent state, all active members agree on
`resinStartTime`, `resinTreatmentType` and `resinPowerCuts`. -/
theorem resin_batch_consistency (ops : List ResinOp) (bs : List Block)
    (h : resinSync bs) :
    resinSync (runResinOps ops bs) ∧
    (∀ (sel : List String) (st : ℤ) (tt : ResinTreatmentType),
        bs.any (fun b => decide (b.status = BlockStatus.resining)) = false →
        ∀ b2 ∈ applyResinOp (ResinOp.load sel st tt) bs,
          b2.status = BlockStatus.resining →
            b2.resinStartTime = some st ∧
            b2.resinTreatmentType = some tt ∧
            b2.resinPowerCuts = []) ∧
    (∀ (pc : PowerCut), ∀ b0 ∈ bs, b0.status = BlockStatus.resining →
        cutOne pc b0 ∈ applyResinOp (ResinOp.addCut pc) bs ∧
        (cutOne pc b0).resinPowerCuts = b0.resinPowerCuts ++ [pc]) ∧
    (∀ (e : ℤ), ∀ b0 ∈ bs, b0.status = BlockStatus.resining →
        finishOne e b0 ∈ applyResinOp (ResinOp.finish e) bs ∧
        (finishOne e b0).status = BlockStatus.completed ∧
        (finishOne e b0).resinEndTime = some e) := by
  refine ⟨resinSync_runResinOps ops bs h, ?_, ?_, ?_⟩
  · intro sel st tt hocc b2 hb2 hrb2
    have hnone := any_resining_false bs hocc
    have hb2b : b2 ∈
        (if bs.any (fun b => decide (b.status = BlockStatus.resining)) then bs
         else if sel.isEmpty then bs else bs.map (loadOne sel st tt)) := hb2
    rw [if_neg (by rw [hocc]; exact Bool.false_ne_true)] at hb2b
    by_cases hsel : sel.isEmpty = true
    · rw [if_pos hsel] at hb2b
      exact absurd hrb2 (hnone b2 hb2b)
    · rw [if_neg hsel] at hb2b
      obtain ⟨b0, hb0, rfl⟩ := List.mem_map.mp hb2b
      rcases loadOne_eq_or sel st tt b0 with hl | hl
      · rw [hl]
        exact ⟨rfl, rfl, rfl⟩
      · rw [hl] at hrb2
        exact absurd hrb2 (hnone b0 hb0)
  · intro pc b0 hb0 hr
    exact ⟨List.mem_map_of_mem (cutOne pc) hb0, cutOne_cuts pc b0 hr⟩
  · intro e b0 hb0 hr
    refine ⟨List.mem_map_of_mem (finishOne e) hb0, ?_, ?_⟩
    · unfold finishOne; rw [if_pos hr]
    · unfold finishOne; rw [if_pos hr]

/-- Closed check for C7: the spec's example — three Processing blocks loaded
together, one power cut, one finish — ends in a consistent state. -/
theorem resin_batch_consistency_witness :
    resinSync (runResinOps resinOpsEx resinTrioEx) :=
  (resin_batch_consistency resinOpsEx resinTrioEx (by decide)).1

/-! ## C10 — jobNo uniqueness -/

/-- Claim C10 (amended): creating a purchase record checks the submitted
`jobNo` case-insensitively against every existing record and aborts with a
duplicate-identifier error on a collision, so creation preserves normalized
`jobNo` uniqueness whenever the stored (uppercased, trimmed) `jobNo`
normalizes back to the checked value — e.g. for inputs without surrounding
whitespace; renaming a block through the stockyard edit form, however,
performs no uniqueness check. -/
theorem purchase_create_checks_duplicates (bs : List Block) (freshId : String)
    (f : PurchaseForm) (today staff : String) :
    (submitPurchase bs freshId f today staff =
        Except.error OpError.duplicateIdentifier ↔
      ∃ b ∈ bs, jsToUpper b.jobNo = jsToUpper f.jobNo) ∧
    (bs.any (fun b => jsToUpper b.jobNo == jsToUpper f.jobNo) = false →
      jsToUpper (jsTrim (jsToUpper f.jobNo)) = jsToUpper f.jobNo →
      jobNoUnique bs →
      ∃ bs2, submitPurchase bs freshId f today staff = Except.ok bs2 ∧
        jobNoUnique bs2) := by
  constructor
  · unfold submitPurchase
    by_cases hdup :
        bs.any (fun b => jsToUpper b.jobNo == jsToUpper f.jobNo) = true
    · rw [if_pos hdup]
      refine iff_of_true rfl ?_
      obtain ⟨b, hb, hbe⟩ := List.any_eq_true.mp hdup
      exact ⟨b, hb, by simpa using hbe⟩
    · rw [if_neg hdup]
      refine iff_of_false (fun hc => Except.noConfusion hc) ?_
      intro ⟨b, hb, hbe⟩
      exact hdup (List.any_eq_true.mpr ⟨b, hb, by simpa using hbe⟩)
  · intro hocc hn hu
    have hdup : ¬ bs.any (fun b => jsToUpper b.jobNo == jsToUpper f.jobNo) = true := by
      rw [hocc]; exact Bool.false_ne_true
    refine ⟨({ blankBlock with
        id := freshId
        jobNo := jsTrim (jsToUpper f.jobNo)
        company := "HI-LINE"
        supplier := jsTrim (jsToUpper f.supplier)
        material := jsTrim (jsToUpper f.material)
        country := jsTrim (jsToUpper f.country)
        weight := f.weight
        status := BlockStatus.purchased
        arrivalDate := today
        enteredBy := staff } : Block) :: bs, ?_, ?_⟩
    · unfold submitPurchase
      rw [if_neg hdup]
    · unfold jobNoUnique
      rw [List.map_cons, List.nodup_cons]
      refine ⟨?_, hu⟩
      intro hmem
      obtain ⟨x, hx, hxe⟩ := List.mem_map.mp hmem
      apply hdup
      refine List.any_eq_true.mpr ⟨x, hx, ?_⟩
      have hnew :
          jsToUpper ({ blankBlock with
            id := freshId
            jobNo := jsTrim (jsToUpper f.jobNo)
            company := "HI-LINE"
            supplier := jsTrim (jsToUpper f.supplier)
            material := jsTrim (jsToUpper f.material)
            country := jsTrim (jsToUpper f.country)
            weight := f.weight
            status := BlockStatus.purchased
            arrivalDate := today
            enteredBy := staff } : Block).jobNo = jsToUpper f.jobNo := hn
      rw [hnew] at hxe
      simpa using hxe

/-- Closed check for C10: a fresh purchase with a non-colliding job number
succeeds and keeps the normalized job numbers duplicate-free. -/
theorem purchase_create_checks_duplicates_witness :
    ∃ bs2, submitPurchase yardPairEx "u-3" purchaseFormEx "2025-01-01" "OP" =
        Except.ok bs2 ∧ jobNoUnique bs2 :=
  (purchase_create_checks_duplicates yardPairEx "u-3" purchaseFormEx
    "2025-01-01" "OP").2 (by decide) (by decide) (by decide)

/-- Counterexample to C10 as stated: renaming `B1` to `a1` through the
stockyard edit form succeeds although `A1` already exists, leaving two
records with the same normalized `jobNo`. -/
theorem rename_breaks_jobno_uniqueness :
    jobNoUnique yardPairEx ∧
    ¬ jobNoUnique (yardSaveEdit yardPairEx "u-2" renameEditEx) := by
  constructor
  · decide
  · decide

end HLSI
